import Mathlib

/-!
Verification development for `react-native-voice-utils`.

The repository has two layers:
* an Android native module (`android/.../VoiceModule.kt`) owning one
  `SpeechRecognizer` handle and an `isListening` flag, exposing
  `startListening` / `stopListening` / `destroy` / `isAvailable` /
  `isListening` promise methods and translating `RecognitionListener`
  callbacks into emitted events;
* a JS adapter (`src/index.tsx`) that guards every call against an absent
  native bridge and wraps the emitter-based event subscription.

Both layers are shallowly embedded below.  Platform behaviour that is
outside the repository (whether recognition is available, whether a
platform call throws, and with what message) is passed in explicitly as
environment parameters; promise settlement is an explicit result value.
-/

namespace VoiceModule

/-- The mutable fields of `VoiceModule.kt`: the nullable `speechRecognizer`
handle (modelled as an `Option` over an opaque handle id) and the
`isListening` boolean. -/
structure ModuleState where
  speechRecognizer : Option Nat
  isListening : Bool
deriving Repr, DecidableEq

/-- How a React Native promise is settled by a method of the module:
resolved with a string, resolved with a boolean, or rejected with an error
code and a message (`promise.reject(code, message)`). -/
inductive PromiseResult where
  | resolveStr (value : String)
  | resolveBool (value : Bool)
  | reject (code : String) (message : String)
deriving Repr, DecidableEq

/-- Platform behaviour during one `startListening` call:
whether `SpeechRecognizer.isRecognitionAvailable` reports `true`, whether
`setupSpeechRecognizer` (destroy of the old handle / creation of the new
one) throws, and whether the native `startListening(intent)` call throws;
a `some m` carries the exception message observed by the `catch` block. -/
structure StartEnv where
  available : Bool
  setupExc : Option String
  startExc : Option String
deriving Repr, DecidableEq

/-- `setupSpeechRecognizer()`: destroys any prior recognizer and installs a
freshly created one (`fresh` is the new handle's id) with the module as its
recognition listener. -/
def setupSpeechRecognizer (s : ModuleState) (fresh : Nat) : ModuleState :=
  { s with speechRecognizer := some fresh }

/-- `startListening(promise)` from `VoiceModule.kt`: rejects with
`ALREADY_LISTENING` when the flag is set, with `NOT_AVAILABLE` when the
platform reports recognition unavailable, with `START_ERROR` carrying the
exception message when a platform call inside the `try` throws; otherwise
installs a fresh recognizer, issues the native start, sets
`isListening = true` and resolves.  When `setupSpeechRecognizer` throws the
handle field is left as it was and the flag is untouched; when the native
start call throws the fresh handle has already been installed but the flag
is still untouched. -/
def startListening (s : ModuleState) (env : StartEnv) (fresh : Nat) :
    ModuleState × PromiseResult :=
  if s.isListening then
    (s, .reject "ALREADY_LISTENING" "Speech recognition is already active")
  else if !env.available then
    (s, .reject "NOT_AVAILABLE" "Speech recognition not available")
  else
    match env.setupExc with
    | some m => (s, .reject "START_ERROR" m)
    | none =>
      match env.startExc with
      | some m => (setupSpeechRecognizer s fresh, .reject "START_ERROR" m)
      | none =>
        ({ setupSpeechRecognizer s fresh with isListening := true },
          .resolveStr "Started listening")

/-- `stopListening(promise)`: `speechRecognizer?.stopListening()` is only
invoked when a handle exists, so a platform exception (`exc = some m`) can
only surface then; on the exception path the `catch` rejects with
`STOP_ERROR` before `isListening = false` runs, so the state is unchanged;
otherwise the flag is cleared and the promise resolves. -/
def stopListening (s : ModuleState) (exc : Option String) :
    ModuleState × PromiseResult :=
  match s.speechRecognizer, exc with
  | some _, some m => (s, .reject "STOP_ERROR" m)
  | _, _ => ({ s with isListening := false }, .resolveStr "Stopped listening")

/-- `destroy(promise)`: `speechRecognizer?.destroy()` is only invoked when a
handle exists, so a platform exception can only surface then; on the
exception path the `catch` rejects with `DESTROY_ERROR` before the handle
and flag are cleared, so the state is unchanged; otherwise the handle is
set to `null`, the flag cleared, and the promise resolves. -/
def destroy (s : ModuleState) (exc : Option String) :
    ModuleState × PromiseResult :=
  match s.speechRecognizer, exc with
  | some _, some m => (s, .reject "DESTROY_ERROR" m)
  | _, _ => (⟨none, false⟩, .resolveStr "Destroyed")

/-- `isAvailable(promise)`: resolves with whatever
`SpeechRecognizer.isRecognitionAvailable(reactContext)` returns. -/
def isAvailable (s : ModuleState) (available : Bool) :
    ModuleState × PromiseResult :=
  (s, .resolveBool available)

/-- `isListening(promise)`: resolves with the module's local flag. -/
def isListening (s : ModuleState) : ModuleState × PromiseResult :=
  (s, .resolveBool s.isListening)

/-- Numeric value of `android.speech.SpeechRecognizer.ERROR_NETWORK_TIMEOUT`
(platform SDK constant; value as documented in the spec's error taxonomy). -/
def ERROR_NETWORK_TIMEOUT : Int := 1

/-- Numeric value of `SpeechRecognizer.ERROR_NETWORK`. -/
def ERROR_NETWORK : Int := 2

/-- Numeric value of `SpeechRecognizer.ERROR_AUDIO`. -/
def ERROR_AUDIO : Int := 3

/-- Numeric value of `SpeechRecognizer.ERROR_SERVER`. -/
def ERROR_SERVER : Int := 4

/-- Numeric value of `SpeechRecognizer.ERROR_CLIENT`. -/
def ERROR_CLIENT : Int := 5

/-- Numeric value of `SpeechRecognizer.ERROR_SPEECH_TIMEOUT`. -/
def ERROR_SPEECH_TIMEOUT : Int := 6

/-- Numeric value of `SpeechRecognizer.ERROR_NO_MATCH`. -/
def ERROR_NO_MATCH : Int := 7

/-- Numeric value of `SpeechRecognizer.ERROR_RECOGNIZER_BUSY`. -/
def ERROR_RECOGNIZER_BUSY : Int := 8

/-- Numeric value of `SpeechRecognizer.ERROR_INSUFFICIENT_PERMISSIONS`. -/
def ERROR_INSUFFICIENT_PERMISSIONS : Int := 9

/-- `getErrorMessage(error)` from `VoiceModule.kt`: the `when` table over the
platform error constants, with the `else` branch interpolating the code into
a generic unknown-error message. -/
def getErrorMessage (error : Int) : String :=
  if error = ERROR_AUDIO then "Audio recording error"
  else if error = ERROR_CLIENT then "Client side error"
  else if error = ERROR_INSUFFICIENT_PERMISSIONS then "Insufficient permissions"
  else if error = ERROR_NETWORK then "Network error"
  else if error = ERROR_NETWORK_TIMEOUT then "Network timeout"
  else if error = ERROR_NO_MATCH then "No match found"
  else if error = ERROR_RECOGNIZER_BUSY then "Recognition service busy"
  else if error = ERROR_SERVER then "Server error"
  else if error = ERROR_SPEECH_TIMEOUT then "No speech input"
  else "Unknown error (" ++ toString error ++ ")"

/-- An event emitted through `sendEvent` toward the JS event emitter. -/
inductive EmittedEvent where
  | simple (name : String)
  | errorEvent (code : Int) (message : String)
  | resultsEvent (value : List String) (confidence : Option (List Int))
  | partialResultsEvent (value : List String)
  | rmsEvent (value : Int)
deriving Repr, DecidableEq

/-- `onReadyForSpeech` callback: emits the event, state untouched. -/
def onReadyForSpeech (s : ModuleState) : ModuleState × EmittedEvent :=
  (s, .simple "onReadyForSpeech")

/-- `onBeginningOfSpeech` callback: emits the event, state untouched. -/
def onBeginningOfSpeech (s : ModuleState) : ModuleState × EmittedEvent :=
  (s, .simple "onBeginningOfSpeech")

/-- `onRmsChanged` callback: emits the level, state untouched (the
decibel value is carried opaquely). -/
def onRmsChanged (s : ModuleState) (value : Int) : ModuleState × EmittedEvent :=
  (s, .rmsEvent value)

/-- `onEndOfSpeech` callback: clears `isListening` and emits the event. -/
def onEndOfSpeech (s : ModuleState) : ModuleState × EmittedEvent :=
  ({ s with isListening := false }, .simple "onEndOfSpeech")

/-- `onError(error)` callback: clears `isListening` and emits the numeric
code together with `getErrorMessage(error)`. -/
def onError (s : ModuleState) (error : Int) : ModuleState × EmittedEvent :=
  ({ s with isListening := false }, .errorEvent error (getErrorMessage error))

/-- `onResults(results)` callback: clears `isListening` and emits the
hypotheses (empty when the bundle carries none) and the optional confidence
scores (carried opaquely as numbers). -/
def onResults (s : ModuleState) (matchList : Option (List String))
    (confidence : Option (List Int)) : ModuleState × EmittedEvent :=
  ({ s with isListening := false },
    .resultsEvent (matchList.getD []) confidence)

/-- `onPartialResults` callback: emits the partial hypotheses, state
untouched. -/
def onPartialResults (s : ModuleState) (matchList : Option (List String)) :
    ModuleState × EmittedEvent :=
  (s, .partialResultsEvent (matchList.getD []))

/-- One adapter operation or platform callback, with the platform
behaviour it observes. -/
inductive Op where
  | start (env : StartEnv) (fresh : Nat)
  | stop (exc : Option String)
  | destroyOp (exc : Option String)
  | isAvailableOp (available : Bool)
  | isListeningOp
  | readyForSpeech
  | beginningOfSpeech
  | rmsChanged (value : Int)
  | endOfSpeech
  | errorCb (code : Int)
  | resultsCb (matchList : Option (List String)) (confidence : Option (List Int))
  | partialResultsCb (matchList : Option (List String))
deriving Repr

/-- The state transformation of one operation. -/
def apply (s : ModuleState) : Op → ModuleState
  | .start env fresh => (startListening s env fresh).1
  | .stop exc => (stopListening s exc).1
  | .destroyOp exc => (destroy s exc).1
  | .isAvailableOp available => (isAvailable s available).1
  | .isListeningOp => (isListening s).1
  | .readyForSpeech => (onReadyForSpeech s).1
  | .beginningOfSpeech => (onBeginningOfSpeech s).1
  | .rmsChanged v => (onRmsChanged s v).1
  | .endOfSpeech => (onEndOfSpeech s).1
  | .errorCb code => (onError s code).1
  | .resultsCb m c => (onResults s m c).1
  | .partialResultsCb m => (onPartialResults s m).1

/-- Run a sequence of operations from a state. -/
def run (s : ModuleState) (ops : List Op) : ModuleState :=
  ops.foldl apply s

/-- The initial state of the module: no recognizer handle, not listening. -/
def initState : ModuleState := ⟨none, false⟩

end VoiceModule

namespace VoiceUtils

/-- The environment of the JS adapter in `src/index.tsx`: whether the
native `VoiceModule` bridge object is present (`NativeModules.VoiceModule`
truthy), whether `Platform.OS` is `ios`, and the settlement of each native
promise method when it is invoked (`Except.error` is a rejection carried to
the JS `catch`). -/
structure BridgeEnv where
  moduleLinked : Bool
  platformIsIOS : Bool
  nativeStart : Except String String
  nativeStop : Except String String
  nativeDestroy : Except String String
  nativeIsAvailable : Except String Bool
  nativeIsListening : Except String Bool

/-- JS `startListening()`: throws when the bridge is absent; otherwise the
native result is returned, and a native rejection is logged and rethrown
unchanged. -/
def startListening (env : BridgeEnv) : Except String String :=
  if env.moduleLinked then env.nativeStart
  else .error "VoiceModule is not available"

/-- JS `stopListening()`: throws when the bridge is absent; otherwise the
native result is returned, and a native rejection is rethrown unchanged. -/
def stopListening (env : BridgeEnv) : Except String String :=
  if env.moduleLinked then env.nativeStop
  else .error "VoiceModule is not available"

/-- JS `destroy()`: returns (resolves with `undefined`, here `none`) when
the bridge is absent; otherwise the native result string is returned, and a
native rejection is rethrown unchanged. -/
def destroy (env : BridgeEnv) : Except String (Option String) :=
  if env.moduleLinked then env.nativeDestroy.map some
  else .ok none

/-- JS `isAvailable()`: `false` when the bridge is absent; `false` on iOS
(feature not implemented there); otherwise the native answer, with any
native rejection caught and coerced to `false`. -/
def isAvailable (env : BridgeEnv) : Except String Bool :=
  if !env.moduleLinked then .ok false
  else if env.platformIsIOS then .ok false
  else
    match env.nativeIsAvailable with
    | .ok b => .ok b
    | .error _ => .ok false

/-- JS `isListening()`: `false` when the bridge is absent; otherwise the
native answer, with any native rejection caught and coerced to `false`. -/
def isListening (env : BridgeEnv) : Except String Bool :=
  if !env.moduleLinked then .ok false
  else
    match env.nativeIsListening with
    | .ok b => .ok b
    | .error _ => .ok false

/-- The relay channel (`NativeEventEmitter`) when it exists: the ordered
list of live registrations, each an event name paired with an opaque
callback id. -/
structure VoiceEmitter where
  registrations : List (String × Nat)
deriving Repr, DecidableEq

/-- `addVoiceListener(event, callback)`: when the emitter is absent
(`voiceEmitter` is `null` because the bridge was absent) it warns and
returns a dummy subscription; otherwise it appends the registration and
returns a handle identifying it.  The result pairs the new emitter state
with the subscription handle (`none` is the dummy). -/
def addVoiceListener (em : Option VoiceEmitter) (event : String) (cb : Nat) :
    Option VoiceEmitter × Option (String × Nat) :=
  match em with
  | none => (none, none)
  | some e => (some ⟨e.registrations ++ [(event, cb)]⟩, some (event, cb))

/-- `subscription.remove()`: the dummy subscription is a no-op; a real
handle removes its registration from the emitter. -/
def removeSubscription (em : Option VoiceEmitter) (sub : Option (String × Nat)) :
    Option VoiceEmitter :=
  match sub with
  | none => em
  | some p => em.map fun e => ⟨e.registrations.erase p⟩

/-- Delivery of one event through the emitter: the callbacks invoked, in
registration order, when `event` is emitted.  An absent emitter delivers to
nobody. -/
def deliver (em : Option VoiceEmitter) (event : String) : List Nat :=
  match em with
  | none => []
  | some e => (e.registrations.filter (fun p => p.1 == event)).map (·.2)

/-- `removeAllListeners(event)`: drops every registration for `event`;
a no-op when the emitter is absent. -/
def removeAllListeners (em : Option VoiceEmitter) (event : String) :
    Option VoiceEmitter :=
  em.map fun e => ⟨e.registrations.filter (fun p => p.1 != event)⟩

end VoiceUtils

namespace VoiceModule

/-- A successful `startListening` left the module listening (helper for the
mutual-exclusion theorem). -/
theorem start_success_listening (s : ModuleState) (env : StartEnv) (f : Nat)
    (h : (startListening s env f).2 = .resolveStr "Started listening") :
    (startListening s env f).1.isListening = true := by
  rcases s with ⟨hd, l⟩
  rcases env with ⟨av, se, st⟩
  cases l <;> cases av <;> cases se <;> cases st <;>
    simp_all [startListening, setupSpeechRecognizer]

/-- A listening module rejects `startListening` (helper for the
mutual-exclusion theorem). -/
theorem start_reject_of_listening (s : ModuleState) (env : StartEnv) (f : Nat)
    (h : s.isListening = true) :
    (startListening s env f).2 =
      .reject "ALREADY_LISTENING" "Speech recognition is already active" := by
  simp [startListening, h]

/-- Claim C1: with `state = Listening` (`isListening = true`) a call to
`startListening` rejects with `ALREADY_LISTENING`; and after a successful
`startListening`, a second `startListening` (before any stop, destroy or
terminal event) also rejects with `ALREADY_LISTENING`. -/
theorem startListening_alreadyListening (s : ModuleState) (env env2 : StartEnv)
    (f f2 : Nat) :
    (s.isListening = true →
      (startListening s env f).2 =
        .reject "ALREADY_LISTENING" "Speech recognition is already active")
  ∧ ((startListening s env f).2 = .resolveStr "Started listening" →
      (startListening (startListening s env f).1 env2 f2).2 =
        .reject "ALREADY_LISTENING" "Speech recognition is already active") :=
  ⟨start_reject_of_listening s env f,
   fun h => start_reject_of_listening _ env2 f2 (start_success_listening s env f h)⟩

/-- Witness for C1: both rejection paths at concrete inputs. -/
theorem startListening_alreadyListening_witness :
    (startListening ⟨some 0, true⟩ ⟨true, none, none⟩ 1).2 =
      .reject "ALREADY_LISTENING" "Speech recognition is already active"
  ∧ (startListening (startListening ⟨none, false⟩ ⟨true, none, none⟩ 1).1
      ⟨true, none, none⟩ 2).2 =
      .reject "ALREADY_LISTENING" "Speech recognition is already active" :=
  ⟨(startListening_alreadyListening ⟨some 0, true⟩ ⟨true, none, none⟩
      ⟨true, none, none⟩ 1 1).1 rfl,
   (startListening_alreadyListening ⟨none, false⟩ ⟨true, none, none⟩
      ⟨true, none, none⟩ 1 2).2 rfl⟩

/-- Counterexample to claim C2 as stated: when a recognizer handle exists
and the platform `stopListening` call throws, the `catch` runs before
`isListening = false` does, so the call rejects with `STOP_ERROR` and the
state is still `Listening` — not `Idle`. -/
theorem stopListening_notAlwaysIdle_cex :
    (stopListening ⟨some 0, true⟩ (some "disconnected")).1.isListening = true
  ∧ (stopListening ⟨some 0, true⟩ (some "disconnected")).2 =
      .reject "STOP_ERROR" "disconnected" :=
  ⟨rfl, rfl⟩

/-- Claim C2 (amended): `stopListening` fails with `STOP_ERROR` exactly when
the platform stop call throws (possible only when a handle exists); on that
path the state is left unchanged, and on every non-throwing path — in
particular whenever no session is active — the call resolves and the state
afterwards is `Idle`. -/
theorem stopListening_stateContract (s : ModuleState) (exc : Option String) :
    (s.speechRecognizer.isSome = true ∧ exc.isSome = true →
      (stopListening s exc).1 = s ∧
      (stopListening s exc).2 = .reject "STOP_ERROR" (exc.getD ""))
  ∧ (¬(s.speechRecognizer.isSome = true ∧ exc.isSome = true) →
      (stopListening s exc).1 = { s with isListening := false } ∧
      (stopListening s exc).2 = .resolveStr "Stopped listening") := by
  rcases s with ⟨hd, l⟩
  cases hd <;> cases exc <;> simp [stopListening]

/-- Witness for the amended C2: the throwing path keeps the state, the
no-session path resolves. -/
theorem stopListening_stateContract_witness :
    (stopListening ⟨some 0, true⟩ (some "x")).1 = ⟨some 0, true⟩
  ∧ (stopListening ⟨none, true⟩ (some "x")).2 = .resolveStr "Stopped listening" :=
  ⟨((stopListening_stateContract ⟨some 0, true⟩ (some "x")).1 (by decide)).1,
   ((stopListening_stateContract ⟨none, true⟩ (some "x")).2 (by decide)).2⟩

/-- Counterexample to claim C4 as stated: if the platform-level destroy
throws, the handle is not cleared, so the immediately following second
`destroy` call invokes platform destroy again and can fail the same way —
the second call is not unconditionally failure-free. -/
theorem destroy_secondCallCanFail_cex :
    (destroy (destroy ⟨some 0, false⟩ (some "dead service")).1
      (some "dead service")).2 = .reject "DESTROY_ERROR" "dead service" :=
  rfl

/-- Claim C4 (amended): after a `destroy` that succeeds, a second `destroy`
never fails — whatever the platform does — and leaves state `Idle` with the
handle cleared; and `destroy` with no handle always succeeds as a no-op
(the platform call is skipped, so no exception can surface). -/
theorem destroy_idempotent_afterSuccess (s : ModuleState) (e1 e2 : Option String) :
    ((destroy s e1).2 = .resolveStr "Destroyed" →
      (destroy (destroy s e1).1 e2).2 = .resolveStr "Destroyed"
      ∧ (destroy (destroy s e1).1 e2).1 = ⟨none, false⟩
      ∧ (destroy s e1).1 = ⟨none, false⟩)
  ∧ (s.speechRecognizer = none →
      (destroy s e1).2 = .resolveStr "Destroyed" ∧ (destroy s e1).1 = ⟨none, false⟩) := by
  rcases s with ⟨hd, l⟩
  cases hd <;> cases e1 <;> cases e2 <;> simp [destroy]

/-- Witness for the amended C4: double destroy after a success, and destroy
with no handle under a (skipped) platform exception. -/
theorem destroy_idempotent_afterSuccess_witness :
    ((destroy (destroy ⟨some 3, true⟩ none).1 (some "x")).2 = .resolveStr "Destroyed"
      ∧ (destroy (destroy ⟨some 3, true⟩ none).1 (some "x")).1 = ⟨none, false⟩
      ∧ (destroy ⟨some 3, true⟩ none).1 = ⟨none, false⟩)
  ∧ ((destroy ⟨none, true⟩ (some "y")).2 = .resolveStr "Destroyed"
      ∧ (destroy ⟨none, true⟩ (some "y")).1 = ⟨none, false⟩) :=
  ⟨(destroy_idempotent_afterSuccess ⟨some 3, true⟩ none (some "x")).1 rfl,
   (destroy_idempotent_afterSuccess ⟨none, true⟩ (some "y") none).2 rfl⟩

/-- Claim C5: when the module is not already listening and the platform
reports recognition unavailable, `startListening` rejects with
`NOT_AVAILABLE` and the state is unchanged. -/
theorem startListening_unavailable (s : ModuleState) (env : StartEnv) (f : Nat)
    (h1 : s.isListening = false) (h2 : env.available = false) :
    (startListening s env f).2 =
      .reject "NOT_AVAILABLE" "Speech recognition not available"
  ∧ (startListening s env f).1 = s := by
  simp [startListening, h1, h2]

/-- Witness for C5 at the idle initial state. -/
theorem startListening_unavailable_witness :
    (startListening ⟨none, false⟩ ⟨false, none, none⟩ 0).2 =
      .reject "NOT_AVAILABLE" "Speech recognition not available"
  ∧ (startListening ⟨none, false⟩ ⟨false, none, none⟩ 0).1 = ⟨none, false⟩ :=
  startListening_unavailable ⟨none, false⟩ ⟨false, none, none⟩ 0 rfl rfl

/-- Claim C6: the terminal callbacks `onEndOfSpeech`, `onError` and
`onResults` all clear `isListening`, so after any of them the state is
`Idle`. -/
theorem terminalCallbacks_resetListening (s : ModuleState) (code : Int)
    (matchList : Option (List String)) (confidence : Option (List Int)) :
    (onEndOfSpeech s).1.isListening = false
  ∧ (onError s code).1.isListening = false
  ∧ (onResults s matchList confidence).1.isListening = false :=
  ⟨rfl, rfl, rfl⟩

/-- Claim C9: the `onError` message is `getErrorMessage` of the code, and
`getErrorMessage` realises the fixed numeric taxonomy — each code 1..9
yields its named message (code 7 yields the `NO_MATCH` message) and every
code outside 1..9 yields the generic unknown-error message carrying the
code. -/
theorem getErrorMessage_taxonomy (s : ModuleState) (c : Int) :
    getErrorMessage 1 = "Network timeout"
  ∧ getErrorMessage 2 = "Network error"
  ∧ getErrorMessage 3 = "Audio recording error"
  ∧ getErrorMessage 4 = "Server error"
  ∧ getErrorMessage 5 = "Client side error"
  ∧ getErrorMessage 6 = "No speech input"
  ∧ getErrorMessage 7 = "No match found"
  ∧ getErrorMessage 8 = "Recognition service busy"
  ∧ getErrorMessage 9 = "Insufficient permissions"
  ∧ ((c < 1 ∨ 9 < c) → getErrorMessage c = "Unknown error (" ++ toString c ++ ")")
  ∧ (onError s c).2 = .errorEvent c (getErrorMessage c) := by
  refine ⟨by decide, by decide, by decide, by decide, by decide, by decide,
    by decide, by decide, by decide, ?_, rfl⟩
  intro h
  have hne : c ≠ ERROR_AUDIO ∧ c ≠ ERROR_CLIENT ∧ c ≠ ERROR_INSUFFICIENT_PERMISSIONS
      ∧ c ≠ ERROR_NETWORK ∧ c ≠ ERROR_NETWORK_TIMEOUT ∧ c ≠ ERROR_NO_MATCH
      ∧ c ≠ ERROR_RECOGNIZER_BUSY ∧ c ≠ ERROR_SERVER ∧ c ≠ ERROR_SPEECH_TIMEOUT := by
    simp only [ ERROR_AUDIO, ERROR_CLIENT, ERROR_INSUFFICIENT_PERMISSIONS,
      ERROR_NETWORK, ERROR_NETWORK_TIMEOUT, ERROR_NO_MATCH, ERROR_RECOGNIZER_BUSY,
      ERROR_SERVER, ERROR_SPEECH_TIMEOUT]
    omega
  obtain ⟨h3, h5, h9, h2, h1, h7, h8, h4, h6⟩ := hne
  simp [getErrorMessage, h3, h5, h9, h2, h1, h7, h8, h4, h6]

/-- Witness for C9: a code outside the taxonomy produces the generic
message. -/
theorem getErrorMessage_taxonomy_witness :
    getErrorMessage 42 = "Unknown error (" ++ toString (42 : Int) ++ ")" :=
  (getErrorMessage_taxonomy ⟨none, false⟩ 42).2.2.2.2.2.2.2.2.2.1 (Or.inr (by decide))

end VoiceModule

namespace VoiceModule

/-- The session invariant of the spec's data model: `state = Listening`
implies the recognizer handle is non-`None`. -/
def Inv (s : ModuleState) : Prop :=
  s.isListening = true → s.speechRecognizer.isSome = true

/-- Every single operation or platform callback preserves the session
invariant. -/
theorem apply_preserves_Inv (s : ModuleState) (op : Op) (h : Inv s) :
    Inv (apply s op) := by
  rcases s with ⟨hd, l⟩
  cases op with
  | start env f =>
      rcases env with ⟨av, se, st⟩
      cases l <;> cases av <;> cases se <;> cases st <;>
        simp_all [Inv, apply, startListening, setupSpeechRecognizer]
  | stop exc =>
      cases hd <;> cases exc <;> simp_all [Inv, apply, stopListening]
  | destroyOp exc =>
      cases hd <;> cases exc <;> simp_all [Inv, apply, destroy]
  | isAvailableOp av => exact h
  | isListeningOp => exact h
  | readyForSpeech => exact h
  | beginningOfSpeech => exact h
  | rmsChanged v => exact h
  | endOfSpeech => simp [Inv, apply, onEndOfSpeech]
  | errorCb c => simp [Inv, apply, onError]
  | resultsCb m c => simp [Inv, apply, onResults]
  | partialResultsCb m => exact h

/-- Running any sequence of operations preserves the session invariant. -/
theorem run_preserves_Inv (ops : List Op) (s : ModuleState) (h : Inv s) :
    Inv (run s ops) := by
  induction ops generalizing s with
  | nil => exact h
  | cons op rest ih => exact ih (apply s op) (apply_preserves_Inv s op h)

/-- Claim C7: in every state reachable from the initial `Idle` state by any
sequence of adapter operations and platform callbacks, `state = Listening`
implies the platform recognizer handle is non-`None`. -/
theorem listening_implies_handle (ops : List Op)
    (h : (run initState ops).isListening = true) :
    (run initState ops).speechRecognizer.isSome = true :=
  run_preserves_Inv ops initState (by simp [Inv, initState]) h

/-- Witness for C7: a successful start from the initial state reaches a
listening state, whose handle is then non-`None`. -/
theorem listening_implies_handle_witness :
    (run initState [Op.start ⟨true, none, none⟩ 0]).speechRecognizer.isSome = true :=
  listening_implies_handle [Op.start ⟨true, none, none⟩ 0] rfl

end VoiceModule

namespace VoiceUtils

/-- Claim C3: JS `isAvailable` never fails the caller — it always resolves
with a boolean; it resolves `false` when the bridge is absent, `false` on
the platform without a recognizer implementation (iOS), and `false`
whenever the native availability query rejects. -/
theorem isAvailable_neverFails (env : BridgeEnv) :
    (∃ b, isAvailable env = .ok b)
  ∧ (env.moduleLinked = false → isAvailable env = .ok false)
  ∧ (env.platformIsIOS = true → isAvailable env = .ok false)
  ∧ (∀ m, env.nativeIsAvailable = .error m → isAvailable env = .ok false) := by
  rcases env with ⟨ml, ios, ns, nst, nd, nia, nil⟩
  cases ml <;> cases ios <;> cases nia <;> simp [isAvailable]

/-- Witness for C3: absent bridge, iOS, and a rejecting native query all
resolve `false`. -/
theorem isAvailable_neverFails_witness :
    isAvailable ⟨false, false, .ok "", .ok "", .ok "", .ok true, .ok false⟩ = .ok false
  ∧ isAvailable ⟨true, true, .ok "", .ok "", .ok "", .ok true, .ok false⟩ = .ok false
  ∧ isAvailable ⟨true, false, .ok "", .ok "", .ok "", .error "boom", .ok false⟩ = .ok false :=
  ⟨(isAvailable_neverFails ⟨false, false, .ok "", .ok "", .ok "", .ok true, .ok false⟩).2.1 rfl,
   (isAvailable_neverFails ⟨true, true, .ok "", .ok "", .ok "", .ok true, .ok false⟩).2.2.1 rfl,
   (isAvailable_neverFails ⟨true, false, .ok "", .ok "", .ok "", .error "boom", .ok false⟩).2.2.2
     "boom" rfl⟩

/-- Claim C8: when the relay channel is absent, `addVoiceListener` does not
fail: it returns the dummy subscription, registers nothing, the dummy's
`remove` is a safe no-op, and no event delivery ever invokes the callback
(the subscription is inert). -/
theorem addVoiceListener_absentBridge (event e2 : String) (cb : Nat) :
    (addVoiceListener none event cb).2 = none
  ∧ (addVoiceListener none event cb).1 = none
  ∧ removeSubscription (addVoiceListener none event cb).1
      (addVoiceListener none event cb).2 = none
  ∧ deliver (addVoiceListener none event cb).1 e2 = [] :=
  ⟨rfl, rfl, rfl, rfl⟩

/-- Claim C10: with the native module absent, `destroy` resolves with no
value while `startListening` and `stopListening` both reject with the
`VoiceModule is not available` error — the three control operations are not
uniform in this edge case. -/
theorem bridgeAbsent_controlOps (env : BridgeEnv) (h : env.moduleLinked = false) :
    destroy env = .ok none
  ∧ startListening env = .error "VoiceModule is not available"
  ∧ stopListening env = .error "VoiceModule is not available" := by
  simp [destroy, startListening, stopListening, h]

/-- Witness for C10 at a concrete unlinked environment. -/
theorem bridgeAbsent_controlOps_witness :
    destroy ⟨false, false, .ok "a", .ok "b", .ok "c", .ok true, .ok true⟩ = .ok none
  ∧ startListening ⟨false, false, .ok "a", .ok "b", .ok "c", .ok true, .ok true⟩ =
      .error "VoiceModule is not available"
  ∧ stopListening ⟨false, false, .ok "a", .ok "b", .ok "c", .ok true, .ok true⟩ =
      .error "VoiceModule is not available" :=
  bridgeAbsent_controlOps ⟨false, false, .ok "a", .ok "b", .ok "c", .ok true, .ok true⟩ rfl

end VoiceUtils
